import Mathlib

/-!
Verification development for the modulation scanner repository.

The daemon (`modulation_scanner.py`) and its supervisor (`scanner_watchdog.py`)
are shallowly embedded below.  Timestamps and durations are modelled as exact
rationals, external effects (the device driver, the clock, file I/O outcomes,
process liveness) as explicit parameters, and mutable object fields as explicit
state records threaded through the functions.
-/

/-! ### Per-device scheduler (`ModulationScanner.get_devices_ready_for_scan`) -/

/-- Constant `self.device_scan_interval = 600` (10 minutes, in seconds). -/
def device_scan_interval : ℚ := 600

/-- The mutation `self.device_last_scan[device_name] = time.time()` performed in
`process_device`; the spec calls this operation `mark_scanned`.  The map
`device_last_scan` is modelled as a function from device names to an optional
timestamp (absent means never scanned). -/
def mark_scanned (device_last_scan : String → Option ℚ) (device : String) (t : ℚ) :
    String → Option ℚ :=
  fun d => if d = device then some t else device_last_scan d

/-- Embedding of `get_devices_ready_for_scan`: keep exactly the devices whose
`time_since_scan = current_time - self.device_last_scan.get(device, 0)` is at
least `device_scan_interval`, preserving list order. -/
def get_devices_ready_for_scan (all_devices : List String)
    (device_last_scan : String → Option ℚ) (current_time : ℚ) : List String :=
  all_devices.filter
    (fun device => decide
      (device_scan_interval ≤ current_time - ((device_last_scan device).getD 0)))

/-! ### Device directory filter and routing
(`get_active_devices` and the dispatch in `process_device`) -/

/-- Test whether the list of characters begins with `CCAP`, then the specific
character `c`, then two digits: the anchored form of the search pattern
`CCAPc\d{2}` used for routing in `process_device`. -/
def ccapHere (c : Char) (l : List Char) : Bool :=
  match l with
  | a :: b :: a2 :: p :: x :: d1 :: d2 :: _ =>
      a == 'C' && b == 'C' && a2 == 'A' && p == 'P' && x == c
        && d1.isDigit && d2.isDigit
  | _ => false

/-- Semantics of `re.search(r'CCAPc\d{2}', s)`: the anchored pattern matches at
some position of the string. -/
def ccapSearch (c : Char) : List Char → Bool
  | [] => false
  | a :: rest => ccapHere c (a :: rest) || ccapSearch c rest

/-- Anchored form of the character-class pattern `CCAP[012]\d{2}` used by the
device filter in `get_active_devices`. -/
def ccapClassHere (l : List Char) : Bool :=
  match l with
  | a :: b :: a2 :: p :: x :: d1 :: d2 :: _ =>
      a == 'C' && b == 'C' && a2 == 'A' && p == 'P'
        && (x == '0' || x == '1' || x == '2') && d1.isDigit && d2.isDigit
  | _ => false

/-- Semantics of `re.search(r'CCAP[012]\d{2}', s)`. -/
def ccapClassSearch : List Char → Bool
  | [] => false
  | a :: rest => ccapClassHere (a :: rest) || ccapClassSearch rest

/-- Python's `str.upper()`, mapped over the characters. -/
def upper (s : String) : String := ⟨s.data.map Char.toUpper⟩

/-- Embedding of `get_active_devices` (the part downstream of the HTTP call):
for each hostname returned by the ISW API, upper-case it, keep it only when it
matches `CCAP[012]\d{2}`, and cache the upper-cased names. -/
def get_active_devices (hostnames : List String) : List String :=
  hostnames.filterMap
    (fun hostname =>
      if ccapClassSearch (upper hostname).data then some (upper hostname)
      else none)

/-- The four routing outcomes of the `if/elif` chain in `process_device`. -/
inductive CCAPRoute where
  | ccap0
  | ccap1
  | ccap2
  | unknown
deriving DecidableEq

/-- Embedding of the routing chain in `process_device`: `CCAP0\d{2}`, else
`CCAP1\d{2}`, else `CCAP2\d{2}`, else the unknown-device-type branch. -/
def route_device (device_name : String) : CCAPRoute :=
  if ccapSearch '0' device_name.data then CCAPRoute.ccap0
  else if ccapSearch '1' device_name.data then CCAPRoute.ccap1
  else if ccapSearch '2' device_name.data then CCAPRoute.ccap2
  else CCAPRoute.unknown

/-! ### `process_device` -/

/-- One stored row: the dictionaries appended by `_process_ccap0/1/2`. -/
structure ModRecord where
  device_name : String
  upstream : String
  modulation : String
deriving DecidableEq

/-- Outcome of driving the device driver and the persistence sink for one
device inside the `try` block of `process_device`: either some step raises an
exception (caught by the surrounding `except`), or the block runs to
completion yielding the data returned by `_process_ccapX`
(`none` models a Python `None` return, e.g. a failed connection). -/
inductive ProcOutcome where
  | raises
  | completes (data : Option (List ModRecord))
deriving DecidableEq

/-- Whether the `try` block of `process_device` ran to completion. -/
def ProcOutcome.isCompletes : ProcOutcome → Bool
  | .raises => false
  | .completes _ => true

/-- Result of `process_device`: the returned record list together with the
updated `device_last_scan` map of the scanner object. -/
structure ProcessDeviceResult where
  records : List ModRecord
  device_last_scan : String → Option ℚ

/-- Embedding of `process_device`.  The unknown-device branch returns `[]`
before reaching the timestamp update; an exception anywhere in the `try` block
jumps to the `except` handler, which returns `[]` without updating the
timestamp; a completed run stores the data (already folded into `outcome`),
updates `device_last_scan[device_name]` to the current time, and returns the
data (with Python falsy values `None` and `[]` both returned as `[]`). -/
def process_device (device_name : String) (device_last_scan : String → Option ℚ)
    (now : ℚ) (outcome : ProcOutcome) : ProcessDeviceResult :=
  match route_device device_name with
  | CCAPRoute.unknown => ⟨[], device_last_scan⟩
  | _ =>
    match outcome with
    | ProcOutcome.raises => ⟨[], device_last_scan⟩
    | ProcOutcome.completes data =>
        ⟨data.getD [], mark_scanned device_last_scan device_name now⟩

/-! ### Exclusive process lock
(`_acquire_lock`, `_release_lock`, `_get_existing_pid`, `_cleanup_stale_lock`)

The PID file and the host-wide advisory `flock` are modelled explicitly.
POSIX semantics relevant here: `open(path, 'w')` creates the file if missing
and truncates it to the empty string immediately, independently of any
advisory lock; a non-blocking `LOCK_EX` request fails exactly when another
live process currently holds the lock (the lock vanishes with its holder). -/

/-- State of the PID file on disk. -/
structure LockFS where
  pid_file_present : Bool
  pid_file_content : String
deriving DecidableEq

/-- Python's `str.strip()`: drop whitespace from both ends. -/
def strip_chars (l : List Char) : List Char :=
  ((l.dropWhile Char.isWhitespace).reverse.dropWhile Char.isWhitespace).reverse

/-- Python's `int(s)` on an already-stripped string, returning `none` where
`int` would raise `ValueError`: the digits of a decimal numeral, else
failure. -/
def parse_pid (l : List Char) : Option Nat :=
  if l ≠ [] ∧ l.all Char.isDigit then
    some (l.foldl (fun n c => n * 10 + (c.toNat - 48)) 0)
  else none

/-- Embedding of `_get_existing_pid`: if the PID file exists and its stripped
content is non-empty, parse it as an integer (`int(...)` raising `ValueError`
yields `None`); otherwise `None`. -/
def get_existing_pid (fs : LockFS) : Option Nat :=
  if fs.pid_file_present then
    let content := strip_chars fs.pid_file_content.data
    if content ≠ [] then parse_pid content else none
  else none

/-- Embedding of `_cleanup_stale_lock`: remove the PID file if present. -/
def cleanup_stale_lock (_fs : LockFS) : LockFS :=
  { pid_file_present := false, pid_file_content := "" }

/-- The two lock-related fields of the scanner object
(`self.lock_file is not None` and `self.is_locked`). -/
structure LockSelf where
  lock_file_open : Bool
  is_locked : Bool
deriving DecidableEq

/-- Overall result of `_acquire_lock`: the returned boolean, the PID file,
the advisory-lock holder, and the scanner's own lock fields. -/
structure AcquireResult where
  acquired : Bool
  fs : LockFS
  flock_holder : Option Nat
  scanner : LockSelf
deriving DecidableEq

/-- Embedding of `_acquire_lock` for a caller with identifier `pid`.  The
first argument of the recursion is the remaining depth of the
`return self._acquire_lock()` retry recursion (each call consumes one unit).
Steps of one attempt, in source order:
`open(self.pid_file, 'w')` truncates/creates the PID file; `fcntl.flock(...,
LOCK_EX | LOCK_NB)` fails (raising the caught `IOError`) exactly when a live
process holds the advisory lock; on success the caller's pid is written and
`is_locked` set; on failure the file object is closed and
`_get_existing_pid` is consulted: a live recorded pid means "already
running" (`False`), a dead recorded pid triggers `_cleanup_stale_lock` and a
recursive retry, no recorded pid means plain failure (`False`). -/
def acquire_lock (pid : Nat) (alive : Nat → Bool) :
    Nat → LockFS → Option Nat → AcquireResult
  | 0, fs, holder => ⟨false, fs, holder, ⟨false, false⟩⟩
  | fuel + 1, _fs, holder =>
    let fs1 : LockFS := { pid_file_present := true, pid_file_content := "" }
    let blocked := match holder with
      | some q => alive q
      | none => false
    if blocked then
      match get_existing_pid fs1 with
      | some existing_pid =>
          if alive existing_pid then ⟨false, fs1, holder, ⟨false, false⟩⟩
          else acquire_lock pid alive fuel (cleanup_stale_lock fs1) holder
      | none => ⟨false, fs1, holder, ⟨false, false⟩⟩
    else
      ⟨true, { pid_file_present := true, pid_file_content := toString pid },
        some pid, ⟨true, true⟩⟩

/-- State touched by `_release_lock`: the scanner's own lock fields, whether
this process still holds the advisory lock, and whether the PID file exists. -/
structure ReleaseState where
  is_locked : Bool
  lock_file_open : Bool
  flock_held : Bool
  pid_file_present : Bool
deriving DecidableEq

/-- Embedding of `_release_lock`: only when `self.is_locked and
self.lock_file` does it unlock, close the file object, clear both fields and
remove the PID file (if present); otherwise it does nothing.  The whole body
is wrapped in `try/except`, so it never raises. -/
def release_lock (st : ReleaseState) : ReleaseState :=
  if st.is_locked && st.lock_file_open then
    { is_locked := false, lock_file_open := false, flock_held := false,
      pid_file_present := false }
  else st

/-! ### Health reporting (`_is_process_healthy`, `_update_watchdog`) -/

/-- The daemon's own staleness threshold: `_is_process_healthy` deems the
process unhealthy once the heartbeat is older than 5 minutes (300 s). -/
def daemon_staleness_threshold : ℚ := 300

/-- Embedding of `_is_process_healthy`: unhealthy exactly when
`current_time - self.last_heartbeat` exceeds 300 seconds. -/
def is_process_healthy (current_time last_heartbeat : ℚ) : Bool :=
  if current_time - last_heartbeat > daemon_staleness_threshold then false
  else true

/-- The `self.scan_statistics` dictionary of the scanner. -/
structure ScanStatistics where
  total_scans : Nat
  successful_scans : Nat
  failed_scans : Nat
  total_devices_processed : Nat
  total_records_stored : Nat
  average_scan_time : ℚ
  last_scan_time : ℚ
  started_at : ℚ
  uptime_seconds : ℤ
deriving DecidableEq

/-- The initial `scan_statistics` created in `__init__` (all counters zero). -/
def initial_scan_statistics (started_at : ℚ) : ScanStatistics :=
  ⟨0, 0, 0, 0, 0, 0, 0, started_at, 0⟩

/-- The fields of the scanner object read or written by `_update_watchdog`. -/
structure DaemonFields where
  last_successful_scan : Option ℚ
  last_heartbeat : ℚ
  pid : Nat
  scan_statistics : ScanStatistics
deriving DecidableEq

/-- The `watchdog_data` record serialized to the status file. -/
structure WatchdogSnapshot where
  status : String
  message : String
  last_successful_scan : Option ℚ
  last_heartbeat : ℚ
  pid : Nat
  uptime_seconds : ℤ
  is_healthy : Bool
  statistics : ScanStatistics
deriving DecidableEq

/-- The snapshot value built by `_update_watchdog` at wall-clock time `now`
(the `time.time()` that refreshes `self.last_heartbeat`); `now2` is the
slightly later `time.time()` read inside `_is_process_healthy`.  Uptime is
`int(...)` of the seconds elapsed since `started_at`. -/
def watchdog_snapshot (status message : String)
    (scan_stats : Option ScanStatistics) (st : DaemonFields) (now now2 : ℚ) :
    WatchdogSnapshot :=
  { status := status
    message := message
    last_successful_scan := st.last_successful_scan
    last_heartbeat := now
    pid := st.pid
    uptime_seconds := ⌊now - st.scan_statistics.started_at⌋
    is_healthy := is_process_healthy now2 now
    statistics :=
      scan_stats.getD
        { st.scan_statistics with
            uptime_seconds := ⌊now - st.scan_statistics.started_at⌋ } }

/-- Contents of one of the two status-file paths: absent, partially written
(so not parseable as a complete record), or a complete snapshot. -/
inductive FileContent where
  | absent
  | incomplete
  | full (snap : WatchdogSnapshot)
deriving DecidableEq

/-- The temporary path `watchdog_file + '.tmp'` and the canonical
`watchdog_file`. -/
structure WatchdogFS where
  temp : FileContent
  canonical : FileContent
deriving DecidableEq

/-- Which I/O step of `_update_watchdog`, if any, raises. -/
inductive WriteOutcome where
  | ok
  | temp_write_fails
  | rename_fails
deriving DecidableEq

/-- The `try` block of `_update_watchdog`: refresh `self.last_heartbeat` and
the statistics' uptime, build the snapshot, serialize it fully to the
temporary path, then `os.rename` it over the canonical path.  An exception
(`Except.error`) carries the message together with the object state and file
system at the point where it was raised. -/
def update_watchdog_try (status message : String)
    (scan_stats : Option ScanStatistics) (st : DaemonFields) (fs : WatchdogFS)
    (now now2 : ℚ) (io : WriteOutcome) :
    Except (String × DaemonFields × WatchdogFS) (DaemonFields × WatchdogFS) :=
  let st1 : DaemonFields :=
    { st with
        last_heartbeat := now
        scan_statistics :=
          { st.scan_statistics with
              uptime_seconds := ⌊now - st.scan_statistics.started_at⌋ } }
  let snap := watchdog_snapshot status message scan_stats st now now2
  match io with
  | WriteOutcome.temp_write_fails =>
      Except.error ("temp write failed", st1,
        { fs with temp := FileContent.incomplete })
  | WriteOutcome.rename_fails =>
      Except.error ("rename failed", st1, { fs with temp := FileContent.full snap })
  | WriteOutcome.ok =>
      Except.ok (st1,
        { temp := FileContent.absent, canonical := FileContent.full snap })

/-- Embedding of `_update_watchdog`.  The result type `Except String _`
exposes whether an exception propagates to the caller; the `except` clause
logs the error and falls through, so every error of the body is converted
into a normal return. -/
def update_watchdog (status message : String)
    (scan_stats : Option ScanStatistics) (st : DaemonFields) (fs : WatchdogFS)
    (now now2 : ℚ) (io : WriteOutcome) :
    Except String (DaemonFields × WatchdogFS) :=
  match update_watchdog_try status message scan_stats st fs now now2 io with
  | Except.ok r => Except.ok r
  | Except.error (_msg, st1, fs1) => Except.ok (st1, fs1)

/-! ### Cycle statistics (`run_continuous`, lines updating `scan_statistics`) -/

/-- Observable outcome of one pass of the `while True` loop that found a
non-empty ready set: whether `run_scan_for_devices` succeeded, the counts it
returned, and the measured cycle duration. -/
structure ScanCycle where
  success : Bool
  devices_count : Nat
  records_count : Nat
  duration : ℚ
deriving DecidableEq

/-- The statistics update performed by `run_continuous` after a scan cycle:
bump `total_scans` and `last_scan_time`; on success bump `successful_scans`
and the device/record totals, otherwise bump `failed_scans`; then, whenever
`successful_scans > 0`, recompute `average_scan_time` as
`(avg * (successful_scans - 1) + scan_duration) / successful_scans`. -/
def update_cycle_stats (stats : ScanStatistics) (c : ScanCycle) : ScanStatistics :=
  let s1 := { stats with
      total_scans := stats.total_scans + 1
      last_scan_time := c.duration }
  let s2 :=
    if c.success then
      { s1 with
          successful_scans := s1.successful_scans + 1
          total_devices_processed := s1.total_devices_processed + c.devices_count
          total_records_stored := s1.total_records_stored + c.records_count }
    else { s1 with failed_scans := s1.failed_scans + 1 }
  if 0 < s2.successful_scans then
    { s2 with
        average_scan_time :=
          (s2.average_scan_time * ((s2.successful_scans : ℚ) - 1) + c.duration)
            / (s2.successful_scans : ℚ) }
  else s2

/-- Statistics after a sequence of scan cycles. -/
def run_cycles (stats : ScanStatistics) (cycles : List ScanCycle) : ScanStatistics :=
  cycles.foldl update_cycle_stats stats

/-- Definition following the claim's words: the cumulative running mean of
the scan durations of the successful cycles only. -/
def successful_mean (cycles : List ScanCycle) : ℚ :=
  ((cycles.filter (fun c => c.success)).map ScanCycle.duration).sum
    / (((cycles.filter (fun c => c.success)).length : ℚ))

/-! ### Supervisor (`scanner_watchdog.py`) -/

/-- Supervisor configuration constant `self.max_heartbeat_age = 60`. -/
def max_heartbeat_age : ℚ := 60

/-- Supervisor configuration constant `self.max_restart_attempts = 3`. -/
def max_restart_attempts : Nat := 3

/-- The fields of the parsed status JSON that `get_scanner_status` reads,
each optional since `dict.get` tolerates absence. -/
structure StatusSnapshot where
  pid : Option Nat
  last_heartbeat : Option ℚ
  is_healthy : Option Bool
deriving DecidableEq

/-- What reading the status file yields: no file, a file that fails to parse
as JSON (the read raises, caught by the outer `except`), or a parsed record. -/
inductive StatusFile where
  | absent
  | unparsable
  | parsed (s : StatusSnapshot)
deriving DecidableEq

/-- The dictionary returned by `get_scanner_status`, restricted to the keys
the claims are about: the `running` flag and the failure `reason`. -/
structure ScannerStatus where
  running : Bool
  reason : Option String
deriving DecidableEq

/-- Embedding of `get_scanner_status` at wall-clock time `now`, with `alive`
the host's process-liveness test (`os.kill(pid, 0)`).  A missing or zero
`pid` is falsy in Python, hence "No PID in status file"; `last_heartbeat`
defaults to `0` and `is_healthy` to `True` when absent. -/
def get_scanner_status (file : StatusFile) (alive : Nat → Bool) (now : ℚ) :
    ScannerStatus :=
  match file with
  | StatusFile.absent => ⟨false, some "No status file found"⟩
  | StatusFile.unparsable => ⟨false, some "Error reading status"⟩
  | StatusFile.parsed s =>
    match s.pid with
    | none => ⟨false, some "No PID in status file"⟩
    | some p =>
      if p = 0 then ⟨false, some "No PID in status file"⟩
      else if alive p = false then ⟨false, some "Process not running"⟩
      else if now - s.last_heartbeat.getD 0 > max_heartbeat_age then
        ⟨false, some "Heartbeat too old"⟩
      else if s.is_healthy.getD true = false then
        ⟨false, some "Process marked as unhealthy"⟩
      else ⟨true, none⟩

/-- Outcome of one restart attempt inside `check_and_restart`:
`start_scanner` returned `False`; or it returned `True` but the
post-settle `get_scanner_status` verification reported not running; or the
verification confirmed the scanner live. -/
inductive AttemptOutcome where
  | start_failed
  | verify_failed
  | verified
deriving DecidableEq

/-- Observable result of the restart phase of `check_and_restart`: the final
value of the `restart_attempts` counter (one `start_scanner` call per
increment), how many times the terminal "Failed to restart scanner after N
attempts" report was emitted, and whether a restart was verified. -/
structure RestartResult where
  restart_attempts : Nat
  terminal_failures : Nat
  restarted : Bool
deriving DecidableEq

/-- The `while restart_attempts < self.max_restart_attempts` loop of
`check_and_restart`, structured on the number of remaining iterations
(`max_restart_attempts - restart_attempts`).  Each iteration increments the
counter and calls `start_scanner`; a verified restart returns immediately;
otherwise the loop continues, and when the guard fails the terminal failure
is reported exactly once. -/
def restart_loop (outcomes : Nat → AttemptOutcome) :
    Nat → Nat → RestartResult
  | 0, attempts => ⟨attempts, 1, false⟩
  | remaining + 1, attempts =>
    let a := attempts + 1
    match outcomes a with
    | AttemptOutcome.verified => ⟨a, 0, true⟩
    | _ => restart_loop outcomes remaining a

/-- The restart phase of `check_and_restart`, entered with the counter at 0. -/
def check_and_restart_attempts (outcomes : Nat → AttemptOutcome) : RestartResult :=
  restart_loop outcomes max_restart_attempts 0

/-! ### Theorems -/

/-- A position matching the class pattern `CCAP[012]\d{2}` matches one of the
three routing patterns there. -/
lemma ccapHere_of_classHere (l : List Char) (h : ccapClassHere l = true) :
    ccapHere '0' l = true ∨ ccapHere '1' l = true ∨ ccapHere '2' l = true := by
  rcases l with _ | ⟨a, _ | ⟨b, _ | ⟨a2, _ | ⟨p, _ | ⟨x, _ | ⟨d1, _ | ⟨d2, rest⟩⟩⟩⟩⟩⟩⟩ <;>
    simp only [ccapClassHere, Bool.and_eq_true, Bool.or_eq_true, beq_iff_eq] at h
  all_goals try exact Bool.noConfusion h
  simp only [ccapHere, Bool.and_eq_true, Bool.or_eq_true, beq_iff_eq]
  tauto

/-- A string matching `CCAP[012]\d{2}` matches one of the three routing
patterns. -/
lemma ccapSearch_of_classSearch (l : List Char) (h : ccapClassSearch l = true) :
    ccapSearch '0' l = true ∨ ccapSearch '1' l = true ∨ ccapSearch '2' l = true := by
  induction l with
  | nil => simp [ccapClassSearch] at h
  | cons a rest ih =>
    rw [ccapClassSearch] at h
    rcases Bool.or_eq_true _ _ |>.mp h with hH | hT
    · rcases ccapHere_of_classHere _ hH with h0 | h1 | h2
      · exact Or.inl (by rw [ccapSearch]; simp [h0])
      · exact Or.inr (Or.inl (by rw [ccapSearch]; simp [h1]))
      · exact Or.inr (Or.inr (by rw [ccapSearch]; simp [h2]))
    · rcases ih hT with h0 | h1 | h2
      · exact Or.inl (by rw [ccapSearch]; simp [h0])
      · exact Or.inr (Or.inl (by rw [ccapSearch]; simp [h1]))
      · exact Or.inr (Or.inr (by rw [ccapSearch]; simp [h2]))

/-- Routing never lands in the unknown branch on a string matching the device
filter's pattern. -/
lemma route_device_ne_unknown (d : String) (h : ccapClassSearch d.data = true) :
    route_device d ≠ CCAPRoute.unknown := by
  have := ccapSearch_of_classSearch d.data h
  unfold route_device
  split_ifs <;> simp_all

/-- C10: every hostname cached by `get_active_devices` is an upper-cased API
hostname matching `CCAP[012]\d{2}`, and `process_device` routes every such
device to exactly one of the three CCAP branches: the unknown-device-type
branch is unreachable for devices taken from the device directory. -/
theorem active_devices_route_known (hostnames : List String) (d : String)
    (hd : d ∈ get_active_devices hostnames) :
    ccapClassSearch d.data = true ∧ (∃ h, h ∈ hostnames ∧ d = upper h) ∧
      route_device d ≠ CCAPRoute.unknown := by
  rw [get_active_devices, List.mem_filterMap] at hd
  obtain ⟨h, hmem, hsome⟩ := hd
  by_cases hcs : ccapClassSearch (upper h).data = true
  · rw [if_pos hcs] at hsome
    obtain rfl : upper h = d := Option.some.inj hsome
    exact ⟨hcs, ⟨h, hmem, rfl⟩, route_device_ne_unknown _ hcs⟩
  · rw [if_neg hcs] at hsome
    exact absurd hsome (by simp)

/-- C10 witness: a concrete hostname list. -/
theorem active_devices_route_known_witness :
    ("CCAP001" ∈ get_active_devices ["ccap001"]) ∧
      (ccapClassSearch "CCAP001".data = true ∧
        (∃ h, h ∈ ["ccap001"] ∧ "CCAP001" = upper h) ∧
        route_device "CCAP001" ≠ CCAPRoute.unknown) :=
  ⟨by decide, active_devices_route_known ["ccap001"] "CCAP001" (by decide)⟩

/-- C1 counterexample: a device attempt that fails with an exception does not
record a completion time — `device_last_scan` keeps no entry for the device —
while the same attempt completing does record one; the claim that the
timestamp is updated on both the success and the failure path is false. -/
theorem process_device_failure_path_no_mark :
    (process_device "CCAP001" (fun _ => none) 1000
        ProcOutcome.raises).device_last_scan "CCAP001" = none ∧
    (process_device "CCAP001" (fun _ => none) 1000
        (ProcOutcome.completes (some []))).device_last_scan "CCAP001" = some 1000 :=
  ⟨rfl, rfl⟩

/-- C1 amended: `process_device` updates `device_last_scan[device]` exactly
when the attempt runs to completion without an exception (even if it yielded
no data); on the exception path, and for unknown device types, the entry is
left unchanged, so a crashed attempt does not consume the device's scan slot. -/
theorem process_device_marks_completed_attempts (d : String)
    (last : String → Option ℚ) (now : ℚ) (out : ProcOutcome) :
    (process_device d last now out).device_last_scan =
      if route_device d ≠ CCAPRoute.unknown ∧ out.isCompletes = true then
        mark_scanned last d now
      else last := by
  rcases hr : route_device d <;> rcases out with _ | data <;>
    simp [process_device, hr, ProcOutcome.isCompletes]

/-- C3 counterexample: a device with no recorded scan is treated as last
scanned at time 0, so at a clock value below the scan interval it is not
ready, although the claim requires every never-scanned device to be ready. -/
theorem ready_devices_claim_counterexample :
    ((fun _ => (none : Option ℚ)) "CCAP001" = none) ∧
      "CCAP001" ∉ get_devices_ready_for_scan ["CCAP001"] (fun _ => none) 0 :=
  ⟨rfl, by simp [get_devices_ready_for_scan, device_scan_interval]⟩

/-- C3 amended: a listed device is ready iff `now - last` is at least the
interval, where a device with no recorded scan counts as last scanned at
time 0 — which coincides with the claimed readiness condition whenever the
clock is at least one interval past 0; and after `mark_scanned d t` the
device is not ready at any time before `t + interval`. -/
theorem ready_devices_spec (all : List String) (last : String → Option ℚ)
    (now : ℚ) (d : String) (hd : d ∈ all)
    (hnow : device_scan_interval ≤ now) :
    (d ∈ get_devices_ready_for_scan all last now ↔
      (last d = none ∨ device_scan_interval ≤ now - (last d).getD 0)) ∧
    (∀ t now2 : ℚ, now2 < t + device_scan_interval →
      d ∉ get_devices_ready_for_scan all (mark_scanned last d t) now2) := by
  constructor
  · rw [get_devices_ready_for_scan, List.mem_filter]
    rcases h : last d with _ | t
    · simp [h, hd, hnow]
    · simp [h, hd]
  · intro t now2 hlt
    rw [get_devices_ready_for_scan, List.mem_filter]
    rintro ⟨-, hcond⟩
    simp [mark_scanned] at hcond
    linarith

/-- C3 witness: a concrete instance of the amended readiness theorem. -/
theorem ready_devices_spec_witness :
    ("CCAP001" ∈ get_devices_ready_for_scan ["CCAP001"] (fun _ => none) 600 ↔
      ((fun _ => (none : Option ℚ)) "CCAP001" = none ∨
        device_scan_interval ≤ 600 - (((fun _ => (none : Option ℚ)) "CCAP001").getD 0))) ∧
    (∀ t now2 : ℚ, now2 < t + device_scan_interval →
      "CCAP001" ∉ get_devices_ready_for_scan ["CCAP001"]
        (mark_scanned (fun _ => none) "CCAP001" t) now2) :=
  ready_devices_spec ["CCAP001"] (fun _ => none) 600 "CCAP001" (by simp)
    (by norm_num [device_scan_interval])

/-- C4 (code defect): `open(self.pid_file, 'w')` truncates the lock file
before `flock` is attempted, so when acquisition fails the previously
recorded holder pid has already been erased; `_get_existing_pid` then reads
an empty file and `_acquire_lock` returns `False` without reclaiming, even
though the recorded pid (999) belongs to a dead process — the stale-reclaim
branch is unreachable on the flock-contention path.  The same truncation is a
side effect on the "already running" path. -/
theorem acquire_lock_truncates_before_read :
    get_existing_pid ⟨true, "999"⟩ = some 999 ∧
    ((fun n => n == 7) : Nat → Bool) 999 = false ∧
    acquire_lock 42 (fun n => n == 7) 2 ⟨true, "999"⟩ (some 7)
      = ⟨false, ⟨true, ""⟩, some 7, ⟨false, false⟩⟩ ∧
    acquire_lock 42 (fun n => n == 7) 2 ⟨true, "7"⟩ (some 7)
      = ⟨false, ⟨true, ""⟩, some 7, ⟨false, false⟩⟩ :=
  ⟨rfl, rfl, rfl, rfl⟩

/-- C2 counterexample: the daemon's staleness threshold (300 s) is not
strictly smaller than the Supervisor's (60 s); at heartbeat age 100 s the
daemon still computes `is_healthy = True` while the Supervisor's liveness
check already reports the scanner as not running. -/
theorem daemon_threshold_not_below_supervisor :
    ¬ daemon_staleness_threshold < max_heartbeat_age ∧
    is_process_healthy 100 0 = true ∧
    (get_scanner_status (StatusFile.parsed ⟨some 7, some 0, some true⟩)
        (fun n => n == 7) 100).running = false := by
  refine ⟨by norm_num [daemon_staleness_threshold, max_heartbeat_age], ?_, ?_⟩
  · norm_num [is_process_healthy, daemon_staleness_threshold]
  · norm_num [get_scanner_status, max_heartbeat_age]

/-- C2 amended: every snapshot written by `_update_watchdog` carries
`is_healthy` computed at write time as `(now - last_heartbeat) <=
daemon_staleness_threshold`, but the daemon's threshold (300 s) is strictly
larger than the Supervisor's (60 s), so the Supervisor declares the daemon
dead before the daemon would self-report unhealthy. -/
theorem is_healthy_write_time_formula (status message : String)
    (scan_stats : Option ScanStatistics) (st : DaemonFields) (now now2 : ℚ) :
    ((watchdog_snapshot status message scan_stats st now now2).is_healthy =
      decide (now2 - (watchdog_snapshot status message scan_stats st now
        now2).last_heartbeat ≤ daemon_staleness_threshold)) ∧
    max_heartbeat_age < daemon_staleness_threshold := by
  constructor
  · show is_process_healthy now2 now
      = decide (now2 - now ≤ daemon_staleness_threshold)
    by_cases h : now2 - now ≤ daemon_staleness_threshold
    · simp [is_process_healthy, h, not_lt.mpr h]
    · simp [is_process_healthy, h, not_le.mp h]
  · norm_num [max_heartbeat_age, daemon_staleness_threshold]

/-- C5: `_update_watchdog` never propagates an exception to its caller (the
`except` clause converts every error of the body into a normal return), and
the canonical status file is only ever replaced wholesale by the rename: for
every I/O outcome it holds either its previous content or the complete new
snapshot, never a partial write. -/
theorem update_watchdog_no_raise_atomic (status message : String)
    (scan_stats : Option ScanStatistics) (st : DaemonFields) (fs : WatchdogFS)
    (now now2 : ℚ) (io : WriteOutcome) :
    ∃ r, update_watchdog status message scan_stats st fs now now2 io
        = Except.ok r ∧
      (r.2.canonical = fs.canonical ∨
        r.2.canonical = FileContent.full
          (watchdog_snapshot status message scan_stats st now now2)) := by
  cases io with
  | ok => exact ⟨_, rfl, Or.inr rfl⟩
  | temp_write_fails => exact ⟨_, rfl, Or.inl rfl⟩
  | rename_fails => exact ⟨_, rfl, Or.inl rfl⟩

/-- C6: for a parsed snapshot carrying a genuine pid, a heartbeat and a
health flag, `get_scanner_status` reports `running = True` iff the recorded
process is alive, the heartbeat age is at most `max_heartbeat_age` and the
snapshot's `is_healthy` is true; every failing outcome (including a missing
or unparsable status file) comes with a reason. -/
theorem get_scanner_status_liveness_iff (alive : Nat → Bool) (now : ℚ)
    (s : StatusSnapshot) (p : Nat) (hb : ℚ) (b : Bool)
    (hp : s.pid = some p) (hp0 : p ≠ 0)
    (hhb : s.last_heartbeat = some hb) (hih : s.is_healthy = some b) :
    ((get_scanner_status (StatusFile.parsed s) alive now).running = true ↔
      (alive p = true ∧ now - hb ≤ max_heartbeat_age ∧ b = true)) ∧
    ((get_scanner_status (StatusFile.parsed s) alive now).running = false →
      (get_scanner_status (StatusFile.parsed s) alive now).reason ≠ none) ∧
    ((get_scanner_status StatusFile.absent alive now).running = false ∧
      (get_scanner_status StatusFile.absent alive now).reason ≠ none) ∧
    ((get_scanner_status StatusFile.unparsable alive now).running = false ∧
      (get_scanner_status StatusFile.unparsable alive now).reason ≠ none) := by
  refine ⟨?_, ?_, by simp [get_scanner_status], by simp [get_scanner_status]⟩
  · simp only [get_scanner_status, hp, hhb, hih, Option.getD_some]
    split_ifs with h1 h2 h3 h4
    · exact absurd h1 hp0
    · simp [h2]
    · simp [not_le.mpr h3]
    · simp [h4]
    · simp_all [not_lt]
  · simp only [get_scanner_status, hp, hhb, hih, Option.getD_some]
    split_ifs <;> simp

/-- C6 witness: a concrete live snapshot. -/
theorem get_scanner_status_liveness_iff_witness :
    (((get_scanner_status (StatusFile.parsed ⟨some 7, some 100, some true⟩)
        (fun n => n == 7) 130).running = true ↔
      ((fun n => n == 7) 7 = true ∧ (130 : ℚ) - 100 ≤ max_heartbeat_age ∧
        true = true)) ∧
    ((get_scanner_status (StatusFile.parsed ⟨some 7, some 100, some true⟩)
        (fun n => n == 7) 130).running = false →
      (get_scanner_status (StatusFile.parsed ⟨some 7, some 100, some true⟩)
        (fun n => n == 7) 130).reason ≠ none) ∧
    ((get_scanner_status StatusFile.absent (fun n => n == 7) 130).running = false ∧
      (get_scanner_status StatusFile.absent (fun n => n == 7) 130).reason ≠ none) ∧
    ((get_scanner_status StatusFile.unparsable (fun n => n == 7) 130).running = false ∧
      (get_scanner_status StatusFile.unparsable (fun n => n == 7) 130).reason ≠ none)) :=
  get_scanner_status_liveness_iff (fun n => n == 7) 130 ⟨some 7, some 100, some true⟩
    7 100 true rfl (by decide) rfl rfl

/-- When no attempt is ever verified, the restart loop runs through all its
remaining iterations, incrementing the counter each time, and then reports
the terminal failure once. -/
lemma restart_loop_all_fail (outcomes : Nat → AttemptOutcome)
    (h : ∀ i, outcomes i ≠ AttemptOutcome.verified) :
    ∀ remaining attempts, restart_loop outcomes remaining attempts
      = ⟨attempts + remaining, 1, false⟩ := by
  intro remaining
  induction remaining with
  | zero => intro attempts; simp [restart_loop]
  | succ m ih =>
    intro attempts
    rw [restart_loop]
    rcases ho : outcomes (attempts + 1) with _ | _ | _
    · simp only [ho]; rw [ih]; congr 1; omega
    · simp only [ho]; rw [ih]; congr 1; omega
    · exact absurd ho (h (attempts + 1))

/-- C7: if every restart attempt fails (either `start_scanner` fails or the
post-settle verification does), `check_and_restart` performs exactly
`max_restart_attempts` start attempts — the counter reaches the ceiling in
exactly that many iterations — then reports the terminal failure exactly
once and stops. -/
theorem restart_ceiling_exact (outcomes : Nat → AttemptOutcome)
    (h : ∀ i, outcomes i ≠ AttemptOutcome.verified) :
    check_and_restart_attempts outcomes
      = ⟨max_restart_attempts, 1, false⟩ := by
  rw [check_and_restart_attempts, restart_loop_all_fail outcomes h]
  congr 1

/-- C7 witness: every attempt fails to start. -/
theorem restart_ceiling_exact_witness :
    check_and_restart_attempts (fun _ => AttemptOutcome.start_failed)
      = ⟨max_restart_attempts, 1, false⟩ :=
  restart_ceiling_exact _ (fun _ h => AttemptOutcome.noConfusion h)

/-- C8: `_release_lock` is idempotent — a second call after a release leaves
everything unchanged — a call by a non-holder (`is_locked` false) changes no
state at all, and the PID file can only disappear through a call made while
holding the lock. -/
theorem release_lock_idempotent_holder_only (st : ReleaseState) :
    release_lock (release_lock st) = release_lock st ∧
    (st.is_locked = false → release_lock st = st) ∧
    ((release_lock st).pid_file_present ≠ st.pid_file_present →
      st.is_locked = true ∧ st.lock_file_open = true) := by
  unfold release_lock
  rcases h1 : st.is_locked <;> rcases h2 : st.lock_file_open <;> simp [h1, h2]

/-- C8 witness: releasing as a non-holder changes nothing, and the release
operation is idempotent on that state. -/
theorem release_lock_idempotent_holder_only_witness :
    release_lock (release_lock ⟨false, true, true, true⟩)
        = release_lock ⟨false, true, true, true⟩ ∧
    release_lock ⟨false, true, true, true⟩ = ⟨false, true, true, true⟩ :=
  ⟨(release_lock_idempotent_holder_only _).1,
    (release_lock_idempotent_holder_only _).2.1 rfl⟩

/-- C9 counterexample: after a successful 10-second cycle followed by a
failed 100-second cycle, `average_scan_time` is 100 — the failed cycle's
duration overwrote the average, because the update runs on every cycle once
`successful_scans > 0` — while the mean of the successful cycles' durations
is 10. -/
theorem average_scan_time_counterexample :
    (run_cycles (initial_scan_statistics 0)
        [⟨true, 0, 0, 10⟩, ⟨false, 0, 0, 100⟩]).average_scan_time = 100 ∧
    successful_mean [⟨true, 0, 0, 10⟩, ⟨false, 0, 0, 100⟩] = 10 ∧
    (100 : ℚ) ≠ 10 := by
  refine ⟨?_, ?_, by norm_num⟩
  · norm_num [run_cycles, update_cycle_stats, initial_scan_statistics]
  · norm_num [successful_mean]

/-- Invariant of the statistics update on all-successful cycle sequences:
the success counter grows by the number of cycles and the average times the
final counter accumulates exactly the durations. -/
lemma run_cycles_success_invariant (cycles : List ScanCycle)
    (h : ∀ c ∈ cycles, c.success = true) :
    ∀ stats : ScanStatistics,
      (run_cycles stats cycles).successful_scans
          = stats.successful_scans + cycles.length ∧
      (run_cycles stats cycles).average_scan_time
            * ((stats.successful_scans : ℚ) + cycles.length)
        = stats.average_scan_time * stats.successful_scans
            + (cycles.map ScanCycle.duration).sum := by
  induction cycles with
  | nil => intro stats; simp [run_cycles]
  | cons c rest ih =>
    intro stats
    have hc : c.success = true := h c (by simp)
    have hrest : ∀ x ∈ rest, x.success = true := fun x hx => h x (by simp [hx])
    have hrun : run_cycles stats (c :: rest)
        = run_cycles (update_cycle_stats stats c) rest := rfl
    have h1 : (update_cycle_stats stats c).successful_scans
        = stats.successful_scans + 1 := by
      simp [update_cycle_stats, hc]
    have h2 : (update_cycle_stats stats c).average_scan_time
        = (stats.average_scan_time * ((stats.successful_scans : ℚ) + 1 - 1)
            + c.duration) / ((stats.successful_scans : ℚ) + 1) := by
      simp [update_cycle_stats, hc]
    obtain ⟨ihn, iha⟩ := ih hrest (update_cycle_stats stats c)
    have hne : ((stats.successful_scans : ℚ) + 1) ≠ 0 := by positivity
    constructor
    · rw [hrun, ihn, h1, List.length_cons]
      omega
    · rw [hrun]
      rw [h1] at iha
      rw [h2] at iha
      push_cast at iha ⊢
      rw [List.length_cons, List.map_cons, List.sum_cons]
      push_cast
      have : ((stats.successful_scans : ℚ) + 1 - 1) = (stats.successful_scans : ℚ) := by
        ring
      rw [this] at iha
      field_simp at iha
      calc (run_cycles (update_cycle_stats stats c) rest).average_scan_time
            * ((stats.successful_scans : ℚ) + ((rest.length : ℚ) + 1))
          = (run_cycles (update_cycle_stats stats c) rest).average_scan_time
            * (((stats.successful_scans : ℚ) + 1) + (rest.length : ℚ)) := by ring
        _ = (stats.average_scan_time * (stats.successful_scans : ℚ)
              + c.duration) + (rest.map ScanCycle.duration).sum := iha
        _ = stats.average_scan_time * (stats.successful_scans : ℚ)
              + (c.duration + (rest.map ScanCycle.duration).sum) := by ring

/-- C9 amended: the average update runs on every completed cycle once a
success has been recorded, so in general `average_scan_time` is not the mean
of the successful cycles' durations; restricted to runs in which every cycle
succeeds it does equal the cumulative running mean of the cycle durations. -/
theorem average_scan_time_all_success (cycles : List ScanCycle)
    (h : ∀ c ∈ cycles, c.success = true) (hne : cycles ≠ [])
    (started_at : ℚ) :
    (run_cycles (initial_scan_statistics started_at) cycles).average_scan_time
      = (cycles.map ScanCycle.duration).sum / (cycles.length : ℚ) := by
  obtain ⟨-, ha⟩ := run_cycles_success_invariant cycles h
    (initial_scan_statistics started_at)
  have hlen : ((cycles.length : ℚ)) ≠ 0 := by
    simpa using List.length_pos.mpr hne |>.ne'
  rw [eq_div_iff hlen]
  simpa [initial_scan_statistics] using ha

/-- C9 witness: a single successful cycle. -/
theorem average_scan_time_all_success_witness :
    (run_cycles (initial_scan_statistics 0)
        [(⟨true, 3, 5, 10⟩ : ScanCycle)]).average_scan_time
      = (([(⟨true, 3, 5, 10⟩ : ScanCycle)].map ScanCycle.duration)).sum
          / (([(⟨true, 3, 5, 10⟩ : ScanCycle)].length : ℚ)) :=
  average_scan_time_all_success [⟨true, 3, 5, 10⟩] (by simp) (by simp) 0
